import Mathlib

/-!
Verification development for the webguard-instance-v2 worker.

The Go sources are shallowly embedded: pure string/parsing code is translated
directly; network I/O (HTTP exchanges, TCP dials, TLS handshakes) is abstracted
as oracle functions supplied to the embedded control flow, so that every
observable decision of the code (retry, dedup, dispatch, validity checks,
posted payloads) is reproduced exactly.
-/

namespace WebGuard

/-- monitor.Status (internal/monitor/types.go): the three wire status values. -/
inductive Status where
  | up
  | down
  | unknown
  deriving DecidableEq, Repr

/-- monitor.Type is a plain Go string (internal/monitor/types.go). -/
abbrev MType := String

/-- A JSON value as decoded by encoding/json into a Go `any`:
null, bool, number, string, array, object.  Numbers are modelled as integers
(the job ids and numeric fields handled by the flexible parsers are integral;
Go decodes them as float64 and `parseInt64Flexible` truncates to int64, which
is the identity on integral values). -/
inductive JsonValue where
  | null
  | bool (b : Bool)
  | num (n : Int)
  | str (s : String)
  | arr (elems : List JsonValue)
  | obj (fields : List (String × JsonValue))

/- ------------------------------------------------------------------
List-of-characters helpers used to embed the Go strings/net/url functions.
Strings are processed through `String.data` to keep every definition a
plain structural recursion that the kernel can evaluate.
------------------------------------------------------------------ -/

/-- Drops leading and trailing whitespace; models strings.TrimSpace
(restricted to ASCII whitespace, which is all the repository feeds it). -/
def trimChars (cs : List Char) : List Char :=
  ((cs.dropWhile Char.isWhitespace).reverse.dropWhile Char.isWhitespace).reverse

/-- strings.TrimSpace on a String, returning a String. -/
def goTrimSpace (s : String) : String :=
  String.mk (trimChars s.data)

/-- Whether `cs` starts with `pat` (character-exact). -/
def listStartsWith : List Char → List Char → Bool
  | [], _ => true
  | _ :: _, [] => false
  | p :: ps, c :: cs => p = c && listStartsWith ps cs

/-- Whether `pat` occurs as a contiguous substring of `cs`;
models strings.Contains (note: the empty pattern always matches). -/
def listContainsSub (pat : List Char) : List Char → Bool
  | [] => pat.isEmpty
  | c :: cs => listStartsWith pat (c :: cs) || listContainsSub pat cs

/-- strings.Contains(s, sub). -/
def goStringContains (s sub : String) : Bool :=
  listContainsSub sub.data s.data

/-- Splits `cs` at the first occurrence of `pat`:
returns (part before, part after the pattern), or none if absent. -/
def splitFirstSub (pat : List Char) : List Char → Option (List Char × List Char)
  | [] => if pat.isEmpty then some ([], []) else none
  | c :: cs =>
    if listStartsWith pat (c :: cs) then some ([], (c :: cs).drop pat.length)
    else match splitFirstSub pat cs with
      | none => none
      | some (before, after) => some (c :: before, after)

/-- Splits `cs` at the last occurrence of the character `sep`:
returns (part before, part after), or none if `sep` does not occur. -/
def splitLastChar (sep : Char) (cs : List Char) : Option (List Char × List Char) :=
  match cs.reverse.span (fun c => decide (c ≠ sep)) with
  | (_, []) => none
  | (revAfter, _ :: revBefore) => some (revBefore.reverse, revAfter.reverse)

/-- Decimal digit test, as used by strconv / net/url port validation. -/
def isDigitChar (c : Char) : Bool :=
  decide ('0' ≤ c) && decide (c ≤ '9')

/- ------------------------------------------------------------------
internal/target (TCPAddress, SSLAddressAndServerName, extractHostPort)
together with the fragments of net/url and net used by it.
------------------------------------------------------------------ -/

/-- Valid URL scheme per net/url getScheme: a letter followed by
letters, digits, plus, minus or dot. -/
def validScheme (cs : List Char) : Bool :=
  match cs with
  | [] => false
  | c :: rest =>
    c.isAlpha && rest.all (fun d => d.isAlpha || d.isDigit || d = '+' || d = '-' || d = '.')

/-- net/url validOptionalPort with the leading colon removed: the characters
after the last colon of an authority must all be decimal digits (possibly
none). -/
def validPortDigits (cs : List Char) : Bool :=
  cs.all isDigitChar

/-- The Host component net/url.Parse extracts from an authority string
(userinfo before the last at-sign is dropped; a trailing colon-port must be
numeric or parsing fails; bracketed IPv6 literals keep their brackets).
Mirrors net/url parseAuthority/parseHost for the inputs this repository
builds (no percent-escapes in hosts). -/
def parseAuthorityHost (authority : List Char) : Except String (List Char) :=
  let host :=
    match splitLastChar '@' authority with
    | none => authority
    | some (_, after) => after
  match host with
  | '[' :: rest =>
    match splitLastChar ']' ('[' :: rest) with
    | none => .error ("missing right bracket in address")
    | some (_, after) =>
      match after with
      | [] => .ok host
      | ':' :: port => if validPortDigits port then .ok host else .error ("invalid port")
      | _ => .error ("invalid character after bracket")
  | _ =>
    match splitLastChar ':' host with
    | none => .ok host
    | some (_, port) => if validPortDigits port then .ok host else .error ("invalid port")

/-- The authority of a URL string after its scheme separator: everything up
to the first slash, question mark or hash (net/url.Parse). -/
def authorityOf (rest : List Char) : List Char :=
  rest.takeWhile (fun c => decide (c ≠ '/') && decide (c ≠ '?') && decide (c ≠ '#'))

/-- url.Parse(target).Host for a target containing a scheme separator.
With an invalid scheme net/url parses the whole string as a bare path,
leaving Host empty (which extractHostPort then rejects as an empty host);
parse failures inside the authority are reported as errors, exactly the two
outcomes extractHostPort distinguishes. -/
def urlHostOf (target : List Char) : Except String (List Char) :=
  match splitFirstSub [':', '/', '/'] target with
  | none => .ok []
  | some (scheme, rest) =>
    if validScheme scheme then parseAuthorityHost (authorityOf rest)
    else .ok []

/-- net.SplitHostPort: splits host:port at the last colon; a bracketed IPv6
host loses its brackets; a host with stray colons or a missing port is an
error (modelled as none). -/
def goSplitHostPort (cs : List Char) : Option (List Char × List Char) :=
  match cs with
  | '[' :: rest =>
    match splitFirstSub [']'] rest with
    | none => none
    | some (inner, tail) =>
      match tail with
      | ':' :: port => if port.contains ':' then none else some (inner, port)
      | _ => none
  | _ =>
    match splitLastChar ':' cs with
    | none => none
    | some (host, port) => if host.contains ':' then none else some (host, port)

/-- net.JoinHostPort: brackets the host when it contains a colon. -/
def joinHostPort (host port : String) : String :=
  if host.data.contains ':' then "[" ++ host ++ "]:" ++ port
  else host ++ ":" ++ port

/-- extractHostPort (internal/target): trims the target, parses it as a URL
when a scheme separator is present (otherwise as a bare host with an
optional port, via url.Parse of a scheme-relative string, keeping the raw
target when that parse fails or finds no host), and splits off an explicit
port when net.SplitHostPort accepts one. -/
def extractHostPort (rawTarget : String) : Except String (String × String) :=
  let target := trimChars rawTarget.data
  if target.isEmpty then .error ("target is empty")
  else
    let hostPortResult : Except String (List Char) :=
      if listContainsSub [':', '/', '/'] target then
        urlHostOf target
      else
        match parseAuthorityHost (authorityOf target) with
        | .error _ => .ok target
        | .ok h => if h.isEmpty then .ok target else .ok h
    match hostPortResult with
    | .error e => .error e
    | .ok hostPort0 =>
      let hostPort := trimChars hostPort0
      if hostPort.isEmpty then .error ("target host is empty")
      else
        match goSplitHostPort hostPort with
        | some (h, p) => .ok (String.mk h, String.mk p)
        | none => .ok (String.mk hostPort, "")

/-- target.TCPAddress: host extracted from the target joined with the
explicitly supplied port; the port argument always wins over any port the
target itself carried; non-positive ports are rejected. -/
def TCPAddress (rawTarget : String) (port : Int) : Except String String :=
  match extractHostPort rawTarget with
  | .error e => .error e
  | .ok (host, _) =>
    if port ≤ 0 then .error ("invalid port")
    else .ok (joinHostPort host (toString port))

/-- target.SSLAddressAndServerName: the parsed port is kept when the target
carried one, otherwise 443; returns the dial address and the bare host. -/
def SSLAddressAndServerName (rawTarget : String) : Except String (String × String) :=
  match extractHostPort rawTarget with
  | .error e => .error e
  | .ok (host, parsedPort) =>
    let port := if parsedPort = "" then "443" else parsedPort
    .ok (joinHostPort host port, host)

/- ------------------------------------------------------------------
internal/monitor: flexible wire decoding (parseInt64Flexible,
parseIntFlexible, parseBoolFlexible, Monitoring.UnmarshalJSON) and the
result payload shapes.
------------------------------------------------------------------ -/

/-- strconv.ParseInt(s, 10, 64): an optional sign followed by at least one
decimal digit, within the int64 range. -/
def parseIntGo (cs : List Char) : Option Int :=
  let signed : Int × List Char :=
    match cs with
    | '-' :: rest => (-1, rest)
    | '+' :: rest => (1, rest)
    | _ => (1, cs)
  match signed with
  | (sign, digits) =>
    if digits.isEmpty then none
    else if digits.all isDigitChar then
      let value : Int := sign * (digits.foldl (fun acc c => acc * 10 + (c.toNat - 48)) (0 : Nat) : Nat)
      if -(2 ^ 63) ≤ value ∧ value ≤ 2 ^ 63 - 1 then some value else none
    else none

/-- parseInt64Flexible (internal/monitor/types.go): null and the empty
(trimmed) string coerce to zero; numbers pass through (float64 truncation to
int64 is the identity on the integral values modelled); numeric strings are
parsed in base 10; anything else is a decode error. -/
def parseInt64Flexible (value : JsonValue) (field : String) : Except String Int :=
  match value with
  | .null => .ok 0
  | .num n => .ok n
  | .str s =>
    let trimmed := trimChars s.data
    if trimmed.isEmpty then .ok 0
    else
      match parseIntGo trimmed with
      | some n => .ok n
      | none => .error ("invalid " ++ field)
  | _ => .error ("invalid " ++ field ++ " type")

/-- parseIntFlexible: parseInt64Flexible followed by the int conversion
(the identity in this model). -/
def parseIntFlexible (value : JsonValue) (field : String) : Except String Int :=
  parseInt64Flexible value field

/-- Go strings.ToLower restricted to ASCII, as applied to the flexible
boolean strings. -/
def goToLowerAscii (cs : List Char) : List Char :=
  cs.map (fun c => if 'A' ≤ c ∧ c ≤ 'Z' then Char.ofNat (c.toNat + 32) else c)

/-- parseBoolFlexible (internal/monitor/types.go). -/
def parseBoolFlexible (value : JsonValue) (field : String) : Except String Bool :=
  match value with
  | .null => .ok false
  | .bool b => .ok b
  | .num n => .ok (decide (n ≠ 0))
  | .str s =>
    let trimmed := String.mk (goToLowerAscii (trimChars s.data))
    if trimmed = "" then .ok false
    else if trimmed = "1" ∨ trimmed = "true" ∨ trimmed = "yes" ∨ trimmed = "on" then .ok true
    else if trimmed = "0" ∨ trimmed = "false" ∨ trimmed = "no" ∨ trimmed = "off" then .ok false
    else .error ("invalid " ++ field)
  | _ => .error ("invalid " ++ field ++ " type")

/-- The Monitoring record as the rest of the program uses it.  The struct
declaration in internal/monitor/types.go gives the id field the Go type
int64, but internal/core/client.go keys its dedup map by the id as a string
and every test in the repository (types_test.go, client_test.go,
runner_test.go) constructs and compares ids as strings; the id is therefore
carried as a string here, and the int64 declaration together with its
decoder is embedded separately below as the subject of the id claim. -/
structure Monitoring where
  id : String
  type : MType
  target : String
  timeout : Int
  httpMethod : String
  httpBody : JsonValue
  httpHeaders : JsonValue
  authUsername : String
  authPassword : String
  keyword : String
  port : Int
  maintenanceActive : Bool

/-- The id of a decoded job exactly as Monitoring.UnmarshalJSON computes it
from the raw wire value: parseInt64Flexible(raw.ID, "id"), yielding an
int64. -/
def decodeMonitoringID (idRaw : JsonValue) : Except String Int :=
  parseInt64Flexible idRaw ("id")

/-- The wire value the result payloads carry for monitoring_id: the int64
field of MonitoringResponsePayload / SSLResultPayload serializes as a JSON
number. -/
def postedMonitoringID (id : Int) : JsonValue :=
  .num id

/-- Modelled from the spec: the id is an uninterpreted string that may arrive from
the wire as a number or a string and must be normalized to string, then
carried unchanged into the posted payloads. -/
def normalizeIDSpec (idRaw : JsonValue) : Except String String :=
  match idRaw with
  | .num n => .ok (toString n)
  | .str s => .ok s
  | _ => .error ("invalid id")

/-- monitor.MonitoringResponsePayload, with the id as the string the tests
and the client require (see Monitoring). -/
structure MonitoringResponsePayload where
  monitoringId : String
  status : Status
  responseTime : Option Nat
  deriving DecidableEq, Repr

/-- monitor.SSLResultPayload; timestamps are modelled as integers (Unix
seconds — the UTC conversion applied by the runner does not change the
instant). -/
structure SSLResultPayload where
  monitoringId : String
  isValid : Bool
  expiresAt : Option Int
  issuer : Option String
  issuedAt : Option Int
  deriving DecidableEq, Repr

/- ------------------------------------------------------------------
internal/runner: performHTTPRequest retry loop and the four probe
strategies.  The network is abstracted as oracles: one outcome per HTTP
attempt, one (success flag, elapsed milliseconds) pair per TCP dial.
------------------------------------------------------------------ -/

/-- Constants fixed at the top of internal/runner/runner.go. -/
def fixedHTTPRetryTimes : Nat := 1

/-- The fixed retry delay, in milliseconds. -/
def fixedHTTPRetryDelayMs : Nat := 250

/-- The redirect cap enforced by the CheckRedirect callback. -/
def fixedHTTPMaxRedirects : Nat := 5

/-- What one HTTP attempt (http.Client.Do plus body read) produces: a
transport-level failure, or a complete response with its status code and
body.  An attempt that exceeds the redirect cap surfaces as a transport
error through this same channel.  Each outcome carries the wall-clock
duration of the attempt in milliseconds. -/
inductive AttemptOutcome where
  | transportError (durMs : Nat)
  | response (statusCode : Nat) (body : String) (durMs : Nat)

/-- The observable effect of performHTTPRequest: its returned value plus the
number of requests actually issued, the total time slept between retries,
and the elapsed wall-clock milliseconds (attempt durations plus sleeps),
which is what the calling strategies measure with time.Since. -/
structure HTTPExchange where
  result : Except Unit (Nat × String)
  requestsIssued : Nat
  sleptMs : Nat
  elapsedMs : Nat
  deriving Repr

/-- The retry loop of performHTTPRequest: a response — whatever its status
code — returns immediately; a transport error is retried after the fixed
delay while attempts remain, and the last error is returned once they are
exhausted. -/
def performHTTPLoop (outcomes : Nat → AttemptOutcome) :
    Nat → Nat → Nat → Nat → Nat → HTTPExchange
  | 0, _, requests, slept, elapsed =>
    { result := .error (), requestsIssued := requests, sleptMs := slept, elapsedMs := elapsed }
  | remaining + 1, attempt, requests, slept, elapsed =>
    match outcomes attempt with
    | .response code body dur =>
      { result := .ok (code, body), requestsIssued := requests + 1,
        sleptMs := slept, elapsedMs := elapsed + dur }
    | .transportError dur =>
      if remaining = 0 then
        { result := .error (), requestsIssued := requests + 1,
          sleptMs := slept, elapsedMs := elapsed + dur }
      else
        performHTTPLoop outcomes remaining (attempt + 1) (requests + 1)
          (slept + fixedHTTPRetryDelayMs) (elapsed + dur + fixedHTTPRetryDelayMs)

/-- performHTTPRequest (internal/runner/runner.go): rejects an empty
(trimmed) target before any network activity, then runs retryTimes + 1
attempts.  Method/header/body normalization and the TLS-insecure transport
configure the request the oracle answers and do not affect the control flow
modelled here. -/
def performHTTPRequest (outcomes : Nat → AttemptOutcome) (m : Monitoring) : HTTPExchange :=
  if (trimChars m.target.data).isEmpty then
    { result := .error (), requestsIssued := 0, sleptMs := 0, elapsedMs := 0 }
  else
    performHTTPLoop outcomes (fixedHTTPRetryTimes + 1) 0 0 0 0

/-- handleHTTPMonitoring: up with a measured response time when the status
code lies in [200, 400); down with no time on a request error or any other
code. -/
def handleHTTPMonitoring (outcomes : Nat → AttemptOutcome) (m : Monitoring) :
    Status × Option Nat :=
  let ex := performHTTPRequest outcomes m
  match ex.result with
  | .error _ => (.down, none)
  | .ok (code, _) =>
    if 200 ≤ code ∧ code < 400 then (.up, some ex.elapsedMs)
    else (.down, none)

/-- handleKeywordMonitoring: up with a measured response time when the body
contains the job keyword as a raw substring (strings.Contains); the status
code is never inspected. -/
def handleKeywordMonitoring (outcomes : Nat → AttemptOutcome) (m : Monitoring) :
    Status × Option Nat :=
  let ex := performHTTPRequest outcomes m
  match ex.result with
  | .error _ => (.down, none)
  | .ok (_, body) =>
    if goStringContains body m.keyword then (.up, some ex.elapsedMs)
    else (.down, none)

/-- The TCP dial oracle: for a dial address, whether net.DialTimeout
succeeded and how many milliseconds it took. -/
structure DialEnv where
  dial : String → Bool × Nat

/-- What a ping/port strategy produced: the status, the optional response
time, and the addresses actually dialed (empty when the strategy returned
without attempting a connection). -/
structure ProbeOutcome where
  status : Status
  responseTime : Option Nat
  dialed : List String
  deriving DecidableEq, Repr

/-- handlePingMonitoring: the port defaults to 80 when non-positive; the
response time is measured around the dial and reported even when the
connection fails. -/
def handlePingMonitoring (env : DialEnv) (m : Monitoring) : ProbeOutcome :=
  let port := if m.port ≤ 0 then 80 else m.port
  match TCPAddress m.target port with
  | .error _ => { status := .down, responseTime := none, dialed := [] }
  | .ok address =>
    let outcome := env.dial address
    if outcome.1 then { status := .up, responseTime := some outcome.2, dialed := [address] }
    else { status := .down, responseTime := some outcome.2, dialed := [address] }

/-- handlePortMonitoring: a non-positive port is down with no response time
and no connection attempt; a failed dial is down with no response time; the
time is recorded only on success. -/
def handlePortMonitoring (env : DialEnv) (m : Monitoring) : ProbeOutcome :=
  if m.port ≤ 0 then { status := .down, responseTime := none, dialed := [] }
  else
    match TCPAddress m.target m.port with
    | .error _ => { status := .down, responseTime := none, dialed := [] }
    | .ok address =>
      let outcome := env.dial address
      if outcome.1 then { status := .up, responseTime := some outcome.2, dialed := [address] }
      else { status := .down, responseTime := none, dialed := [address] }

/- ------------------------------------------------------------------
internal/runner: crawlMonitoringSSL (TLS certificate validator).
------------------------------------------------------------------ -/

/-- The part of an x509 certificate crawlMonitoringSSL inspects.  Times are
modelled as integers (Unix seconds); issuerString is what
certificate.Issuer.String() renders. -/
structure Certificate where
  notBefore : Int
  notAfter : Int
  issuerCommonName : String
  issuerString : String

/-- The connection state of a completed TLS handshake. -/
structure TLSConnState where
  peerCertificates : List Certificate

/-- The environment of one SSL crawl: the TLS dial oracle (address and
server name to connection state, none on dial failure), the current time,
and the hostname verifier (x509 Certificate.VerifyHostname as a boolean
oracle). -/
structure SSLEnv where
  dial : String → String → Option TLSConnState
  now : Int
  verifyHostname : Certificate → String → Bool

/-- crawlMonitoringSSL (internal/runner/runner.go): starts from an
all-empty invalid payload and returns it unchanged on resolution failure,
dial failure, an absent peer certificate, a current time outside the
validity window of the certificate, or a hostname verification failure;
otherwise marks the payload valid and fills expiry, issued-at and the
issuer (common name, falling back to the full issuer string, omitted when
both are empty). -/
def crawlMonitoringSSL (env : SSLEnv) (m : Monitoring) : SSLResultPayload :=
  let base : SSLResultPayload :=
    { monitoringId := m.id, isValid := false, expiresAt := none, issuer := none, issuedAt := none }
  match SSLAddressAndServerName m.target with
  | .error _ => base
  | .ok (address, serverName) =>
    match env.dial address serverName with
    | none => base
    | some conn =>
      match conn.peerCertificates with
      | [] => base
      | cert :: _ =>
        if env.now < cert.notBefore ∨ cert.notAfter < env.now then base
        else if env.verifyHostname cert serverName = false then base
        else
          let issuer :=
            if cert.issuerCommonName = "" then cert.issuerString else cert.issuerCommonName
          { monitoringId := m.id, isValid := true,
            expiresAt := some cert.notAfter,
            issuedAt := some cert.notBefore,
            issuer := if issuer = "" then none else some issuer }

/- ------------------------------------------------------------------
internal/core/client.go: GetMonitorings (fetch with type filter dedup and
id merge) and the configuration checks.  The HTTP round trip of one fetch
is abstracted as an oracle from the optional type query parameter to the
decoded job list; the log of issued fetches is recorded so that "one fetch
per distinct type" is an observable of the model.
------------------------------------------------------------------ -/

/-- The client configuration after NewClient (baseURL with trailing slashes
trimmed, apiKey and instanceCode whitespace-trimmed). -/
structure ClientConfig where
  baseURL : String
  apiKey : String
  instanceCode : String

/-- The observable of one GetMonitorings call: which fetches were issued
(none = no type constraint) in order, and the merged job list returned. -/
structure FetchLog where
  calls : List (Option MType)
  items : List Monitoring

/-- One lower-case getMonitorings fetch: newRequest fails when the base URL
is empty; otherwise the oracle answers the request.  (Network and decode
failures of a fetch are outside this model; the oracle always answers.) -/
def getMonitoringsOne (cfg : ClientConfig) (fetch : Option MType → List Monitoring)
    (t : Option MType) : Except String (List Monitoring) :=
  if cfg.baseURL = "" then .error ("WEBGUARD_CORE_API_URL is empty")
  else .ok (fetch t)

/-- The inner merge of GetMonitorings over one fetched item list: items
whose id was already seen are dropped, new ids are recorded in order. -/
def appendUnseen (seenIDs : List String) : List Monitoring → List String × List Monitoring
  | [] => (seenIDs, [])
  | item :: rest =>
    if item.id ∈ seenIDs then appendUnseen seenIDs rest
    else
      match appendUnseen (seenIDs ++ [item.id]) rest with
      | (seen, items) => (seen, item :: items)

/-- The per-type loop of GetMonitorings: already-requested types are
skipped; each new type issues one fetch whose items are merged keeping the
first occurrence of every id. -/
def mergeMonitoringsLoop (cfg : ClientConfig) (fetch : Option MType → List Monitoring) :
    List MType → List MType → List String → FetchLog → Except String FetchLog
  | [], _, _, acc => .ok acc
  | t :: rest, seenTypes, seenIDs, acc =>
    if t ∈ seenTypes then mergeMonitoringsLoop cfg fetch rest seenTypes seenIDs acc
    else
      match getMonitoringsOne cfg fetch (some t) with
      | .error e => .error e
      | .ok fetched =>
        match appendUnseen seenIDs fetched with
        | (seenIDs2, newItems) =>
          mergeMonitoringsLoop cfg fetch rest (seenTypes ++ [t]) seenIDs2
            { calls := acc.calls ++ [some t], items := acc.items ++ newItems }

/-- GetMonitorings (internal/core/client.go): trims the location, rejects an
empty location, an empty instance code, and a location differing from the
instance code; an empty type list issues one unconstrained fetch; a
non-empty list runs the dedup/merge loop. -/
def GetMonitorings (cfg : ClientConfig) (fetch : Option MType → List Monitoring)
    (location : String) (types : List MType) : Except String FetchLog :=
  let location := goTrimSpace location
  if location = "" then .error ("WEBGUARD_LOCATION is empty")
  else if cfg.instanceCode = "" then .error ("WEBGUARD_LOCATION is empty")
  else if location ≠ cfg.instanceCode then .error ("location must match instance code")
  else if types = [] then
    match getMonitoringsOne cfg fetch none with
    | .error e => .error e
    | .ok items => .ok { calls := [none], items := items }
  else
    mergeMonitoringsLoop cfg fetch types [] [] { calls := [], items := [] }

/-- First-seen-order deduplication of a list, written from the spec wording
("de-duplicates the filter list itself, preserving first-seen order") to be
compared with what the loop issues. -/
def dedupFirstAux (seen : List MType) : List MType → List MType
  | [] => []
  | t :: rest =>
    if t ∈ seen then dedupFirstAux seen rest
    else t :: dedupFirstAux (seen ++ [t]) rest

/-- First-seen-order deduplication starting from nothing seen. -/
def dedupFirst (types : List MType) : List MType :=
  dedupFirstAux [] types

/-- Keeps the first occurrence of each job id in a list, written from the
spec wording ("merges results keeping the first occurrence of each job id
across all type fetches"). -/
def dedupByIDAux (seen : List String) : List Monitoring → List Monitoring
  | [] => []
  | item :: rest =>
    if item.id ∈ seen then dedupByIDAux seen rest
    else item :: dedupByIDAux (seen ++ [item.id]) rest

/-- First-occurrence-by-id filter starting from nothing seen. -/
def dedupByID (items : List Monitoring) : List Monitoring :=
  dedupByIDAux [] items

/- ------------------------------------------------------------------
internal/runner: the two phases and the orchestrator.  Each phase is
modelled by the multiset of results it posts (listed in job order; the
workers post concurrently, so no cross-job order is claimed) together with
its dispatched/skipped counters.
------------------------------------------------------------------ -/

/-- The observable of runResponse over one fetched batch. -/
structure ResponsePhaseReport where
  posts : List MonitoringResponsePayload
  dispatched : Nat
  skippedMaintenance : Nat
  deriving Repr

/-- The observable of runSSL over one fetched batch. -/
structure SSLPhaseReport where
  posts : List SSLResultPayload
  dispatched : Nat
  skippedMaintenance : Nat
  deriving Repr

/-- The dispatch loop of runResponse: a maintenance-flagged job is counted
as skipped and an unknown status with no response time is posted for it
directly; every other job is dispatched to a worker, which executes the
probe strategy and posts its result. -/
def runResponsePhase (crawl : Monitoring → Status × Option Nat) :
    List Monitoring → ResponsePhaseReport
  | [] => { posts := [], dispatched := 0, skippedMaintenance := 0 }
  | m :: rest =>
    let tail := runResponsePhase crawl rest
    if m.maintenanceActive then
      { posts := { monitoringId := m.id, status := .unknown, responseTime := none } :: tail.posts,
        dispatched := tail.dispatched,
        skippedMaintenance := tail.skippedMaintenance + 1 }
    else
      let outcome := crawl m
      { posts := { monitoringId := m.id, status := outcome.1, responseTime := outcome.2 } :: tail.posts,
        dispatched := tail.dispatched + 1,
        skippedMaintenance := tail.skippedMaintenance }

/-- The dispatch loop of runSSL: a maintenance-flagged job is counted as
skipped and nothing is posted for it; every other job is dispatched and its
SSL result posted. -/
def runSSLPhase (crawlSSL : Monitoring → SSLResultPayload) :
    List Monitoring → SSLPhaseReport
  | [] => { posts := [], dispatched := 0, skippedMaintenance := 0 }
  | m :: rest =>
    let tail := runSSLPhase crawlSSL rest
    if m.maintenanceActive then
      { posts := tail.posts,
        dispatched := tail.dispatched,
        skippedMaintenance := tail.skippedMaintenance + 1 }
    else
      { posts := crawlSSL m :: tail.posts,
        dispatched := tail.dispatched + 1,
        skippedMaintenance := tail.skippedMaintenance }

/-- runResponse including its fetch: a fetch failure is logged and returned
as the phase error; otherwise the batch is dispatched. -/
def runResponse (fetchResult : Except String (List Monitoring))
    (crawl : Monitoring → Status × Option Nat) : Except String ResponsePhaseReport :=
  match fetchResult with
  | .error e => .error e
  | .ok jobs => .ok (runResponsePhase crawl jobs)

/-- runSSL including its fetch. -/
def runSSL (fetchResult : Except String (List Monitoring))
    (crawlSSL : Monitoring → SSLResultPayload) : Except String SSLPhaseReport :=
  match fetchResult with
  | .error e => .error e
  | .ok jobs => .ok (runSSLPhase crawlSSL jobs)

/-- What RunMonitoring reports: whether each phase failed (observability
only — the failures are logged, never returned). -/
structure RunReport where
  responseFailed : Bool
  sslFailed : Bool
  deriving DecidableEq, Repr

/-- RunMonitoring (internal/runner/runner.go): runs both phases, waits for
both, logs any phase error, and unconditionally returns success. -/
def RunMonitoring (fetchResp fetchSSL : Except String (List Monitoring))
    (crawl : Monitoring → Status × Option Nat)
    (crawlSSL : Monitoring → SSLResultPayload) : Except String RunReport :=
  let responseResult := runResponse fetchResp crawl
  let sslResult := runSSL fetchSSL crawlSSL
  .ok { responseFailed := !responseResult.isOk, sslFailed := !sslResult.isOk }

/-- The type filter runSSL passes to GetMonitorings: http, keyword, port
(ping has no certificate). -/
def sslPhaseTypes : List MType :=
  ["http", "keyword", "port"]

/- ------------------------------------------------------------------
Lemmas about the merge/dedup machinery of GetMonitorings.
------------------------------------------------------------------ -/

/-- The items appendUnseen keeps are exactly the first-occurrence-by-id
filter of its input. -/
theorem appendUnseen_snd (items : List Monitoring) :
    ∀ seen, (appendUnseen seen items).2 = dedupByIDAux seen items := by
  induction items with
  | nil => intro seen; rfl
  | cons x rest ih =>
    intro seen
    by_cases hx : x.id ∈ seen
    · simp [appendUnseen, dedupByIDAux, hx, ih]
    · simp [appendUnseen, dedupByIDAux, hx, ih]

/-- The seen-id set appendUnseen threads is determined by its input alone,
so consecutive merges compose. -/
theorem dedupByIDAux_append (xs : List Monitoring) :
    ∀ seen ys, dedupByIDAux seen (xs ++ ys)
      = dedupByIDAux seen xs ++ dedupByIDAux (appendUnseen seen xs).1 ys := by
  induction xs with
  | nil => intro seen ys; simp [dedupByIDAux, appendUnseen]
  | cons x rest ih =>
    intro seen ys
    by_cases hx : x.id ∈ seen
    · simp [dedupByIDAux, appendUnseen, hx, ih]
    · simp [dedupByIDAux, appendUnseen, hx, ih]

/-- No id kept by dedupByIDAux was already in the seen set. -/
theorem dedupByIDAux_id_not_seen (items : List Monitoring) :
    ∀ seen i, i ∈ (dedupByIDAux seen items).map Monitoring.id → i ∉ seen := by
  induction items with
  | nil => intro seen i h; simp [dedupByIDAux] at h
  | cons x rest ih =>
    intro seen i h
    by_cases hx : x.id ∈ seen
    · rw [dedupByIDAux, if_pos hx] at h
      exact ih seen i h
    · rw [dedupByIDAux, if_neg hx] at h
      simp only [List.map_cons, List.mem_cons] at h
      cases h with
      | inl h => intro hmem; exact hx (h ▸ hmem)
      | inr h =>
        intro hmem
        exact ih (seen ++ [x.id]) i h (List.mem_append_left _ hmem)

/-- The ids kept by dedupByIDAux are pairwise distinct. -/
theorem dedupByIDAux_nodup (items : List Monitoring) :
    ∀ seen, ((dedupByIDAux seen items).map Monitoring.id).Nodup := by
  induction items with
  | nil => intro seen; simp [dedupByIDAux]
  | cons x rest ih =>
    intro seen
    by_cases hx : x.id ∈ seen
    · rw [dedupByIDAux, if_pos hx]
      exact ih seen
    · rw [dedupByIDAux, if_neg hx]
      simp only [List.map_cons, List.nodup_cons]
      refine ⟨fun hmem => ?_, ih (seen ++ [x.id])⟩
      exact dedupByIDAux_id_not_seen rest (seen ++ [x.id]) x.id hmem
        (List.mem_append_right _ (List.mem_singleton.mpr rfl))

/-- With a configured base URL, the merge loop of GetMonitorings issues one
fetch per first-seen type and merges the answers keeping the first
occurrence of every id. -/
theorem mergeMonitoringsLoop_ok (cfg : ClientConfig) (fetch : Option MType → List Monitoring)
    (hURL : cfg.baseURL ≠ "") (types : List MType) :
    ∀ seenTypes seenIDs acc, mergeMonitoringsLoop cfg fetch types seenTypes seenIDs acc
      = Except.ok
          { calls := acc.calls ++ (dedupFirstAux seenTypes types).map some,
            items := acc.items
              ++ dedupByIDAux seenIDs
                   ((dedupFirstAux seenTypes types).flatMap (fun t => fetch (some t))) } := by
  induction types with
  | nil => intro seenTypes seenIDs acc; simp [mergeMonitoringsLoop, dedupFirstAux, dedupByIDAux]
  | cons t rest ih =>
    intro seenTypes seenIDs acc
    by_cases ht : t ∈ seenTypes
    · rw [mergeMonitoringsLoop, if_pos ht, ih, dedupFirstAux, if_pos ht]
    · rw [mergeMonitoringsLoop, if_neg ht]
      rw [getMonitoringsOne, if_neg hURL]
      simp only [appendUnseen_snd]
      rw [ih]
      rw [dedupFirstAux, if_neg ht]
      simp only [List.flatMap_cons, List.map_cons]
      rw [dedupByIDAux_append]
      simp [List.append_assoc]

/-- Every successful GetMonitorings call passed all four configuration
checks: non-empty trimmed location, non-empty instance code, matching
location, non-empty base URL. -/
theorem GetMonitorings_ok_implies (cfg : ClientConfig) (fetch : Option MType → List Monitoring)
    (location : String) (types : List MType) (log : FetchLog)
    (h : GetMonitorings cfg fetch location types = Except.ok log) :
    goTrimSpace location ≠ "" ∧ cfg.instanceCode ≠ ""
      ∧ goTrimSpace location = cfg.instanceCode ∧ cfg.baseURL ≠ "" := by
  simp only [GetMonitorings] at h
  by_cases h1 : goTrimSpace location = ""
  · rw [if_pos h1] at h; cases h
  rw [if_neg h1] at h
  by_cases h2 : cfg.instanceCode = ""
  · rw [if_pos h2] at h; cases h
  rw [if_neg h2] at h
  by_cases h3 : goTrimSpace location ≠ cfg.instanceCode
  · rw [if_pos h3] at h; cases h
  rw [if_neg h3] at h
  by_cases h5 : cfg.baseURL = ""
  · exfalso
    by_cases h4 : types = []
    · rw [if_pos h4, getMonitoringsOne, if_pos h5] at h; cases h
    · rw [if_neg h4] at h
      cases types with
      | nil => exact h4 rfl
      | cons t rest =>
        rw [mergeMonitoringsLoop, if_neg (List.not_mem_nil t),
          getMonitoringsOne, if_pos h5] at h
        cases h
  · exact ⟨h1, h2, not_ne_iff.mp h3, h5⟩

/-- With all configuration checks passing, GetMonitorings succeeds in this
model (the per-fetch network exchange is abstracted as always answering). -/
theorem GetMonitorings_ok (cfg : ClientConfig) (fetch : Option MType → List Monitoring)
    (location : String) (types : List MType)
    (h1 : goTrimSpace location ≠ "") (h3 : goTrimSpace location = cfg.instanceCode)
    (h5 : cfg.baseURL ≠ "") :
    ∃ log, GetMonitorings cfg fetch location types = Except.ok log := by
  have h2 : cfg.instanceCode ≠ "" := fun hc => h1 (by rw [h3, hc])
  simp only [GetMonitorings]
  rw [if_neg h1, if_neg h2, if_neg (not_ne_iff.mpr h3)]
  by_cases h4 : types = []
  · rw [if_pos h4, getMonitoringsOne, if_neg h5]
    exact ⟨_, rfl⟩
  · rw [if_neg h4, mergeMonitoringsLoop_ok cfg fetch h5 types]
    exact ⟨_, rfl⟩

/-- Claim C3: for every location and every non-empty list of type filters,
fetchJobs de-duplicates the filter list preserving first-seen order, issues
exactly one fetch per distinct type, and returns a merged sequence that
contains no duplicate job ids, keeping the first occurrence of each id
across the per-type fetches; for an empty filter list it issues a single
fetch with no type constraint. -/
theorem C3_fetch_dedup (cfg : ClientConfig) (fetch : Option MType → List Monitoring)
    (location : String) (types : List MType) (log : FetchLog)
    (h : GetMonitorings cfg fetch location types = Except.ok log) :
    (types = [] → log.calls = [none] ∧ log.items = fetch none)
    ∧ (types ≠ [] →
        log.calls = (dedupFirst types).map some
        ∧ log.items = dedupByID ((dedupFirst types).flatMap (fun t => fetch (some t)))
        ∧ (log.items.map Monitoring.id).Nodup) := by
  obtain ⟨h1, h2, h3, h5⟩ := GetMonitorings_ok_implies cfg fetch location types log h
  simp only [GetMonitorings] at h
  rw [if_neg h1, if_neg h2, if_neg (not_ne_iff.mpr h3)] at h
  by_cases h4 : types = []
  · rw [if_pos h4, getMonitoringsOne, if_neg h5] at h
    refine ⟨fun _ => ?_, fun hne => absurd h4 hne⟩
    have hlog : ({ calls := [none], items := fetch none } : FetchLog) = log := by
      exact Except.ok.inj h
    rw [← hlog]
    exact ⟨rfl, rfl⟩
  · rw [if_neg h4, mergeMonitoringsLoop_ok cfg fetch h5 types] at h
    refine ⟨fun he => absurd he h4, fun _ => ?_⟩
    have hlog := Except.ok.inj h
    rw [← hlog]
    refine ⟨by simp [dedupFirst], by simp [dedupFirst, dedupByID], ?_⟩
    simp only [List.nil_append]
    exact dedupByIDAux_nodup _ []

/-- A job value used by the concrete witnesses; only the id and type vary. -/
def mkJob (i : String) (t : MType) : Monitoring :=
  { id := i, type := t, target := "https://example.com", timeout := 5,
    httpMethod := "get", httpBody := .null, httpHeaders := .null,
    authUsername := "", authPassword := "", keyword := "", port := 0,
    maintenanceActive := false }

/-- The fetch oracle of the multi-type client test
(TestGetMonitoringsWithMultipleTypesFetchesAndMerges): http answers two
jobs, keyword answers the shared id again, port answers a fourth job. -/
def fetchFixture : Option MType → List Monitoring
  | some t =>
    if t = "http" then [mkJob ("shared") ("http"), mkJob ("http-only") ("http")]
    else if t = "keyword" then [mkJob ("shared") ("keyword")]
    else if t = "port" then [mkJob ("port-only") ("port")]
    else []
  | none => []

/-- A fully configured client, as the tests construct it. -/
def cfgFixture : ClientConfig :=
  { baseURL := "https://core.example", apiKey := "secret-key", instanceCode := "de-1" }

/-- What GetMonitorings answers on the fixture: three fetches, three merged
jobs, the shared id reported once. -/
def logFixture : FetchLog :=
  { calls := [some ("http"), some ("keyword"), some ("port")],
    items := [mkJob ("shared") ("http"), mkJob ("http-only") ("http"),
      mkJob ("port-only") ("port")] }

/-- Witness for C3 at the multi-type fixture (filters http, keyword, http,
port): three deduplicated fetches and a merge with pairwise distinct ids. -/
theorem C3_fetch_dedup_witness :
    ((["http", "keyword", "http", "port"] : List MType) = [] →
        logFixture.calls = [none] ∧ logFixture.items = fetchFixture none)
    ∧ ((["http", "keyword", "http", "port"] : List MType) ≠ [] →
        logFixture.calls = (dedupFirst ["http", "keyword", "http", "port"]).map some
        ∧ logFixture.items
            = dedupByID ((dedupFirst ["http", "keyword", "http", "port"]).flatMap
                (fun t => fetchFixture (some t)))
        ∧ (logFixture.items.map Monitoring.id).Nodup) :=
  C3_fetch_dedup cfgFixture fetchFixture ("de-1") ["http", "keyword", "http", "port"]
    logFixture rfl

/-- A client configuration whose API key is empty but which is otherwise
complete. -/
def cfgNoAPIKey : ClientConfig :=
  { baseURL := "https://core.example", apiKey := "", instanceCode := "de-1" }

/-- Claim C5, counterexample: with an empty API key (and everything else
configured) GetMonitorings does not fail — it issues the fetch and returns
the jobs, so "fails whenever the API key is empty" is false on the code
(client.go only omits the X-API-KEY header when the key is empty). -/
theorem C5_counterexample :
    cfgNoAPIKey.apiKey = ""
    ∧ GetMonitorings cfgNoAPIKey (fun _ => [mkJob ("1") ("http")]) ("de-1") []
        = Except.ok { calls := [none], items := [mkJob ("1") ("http")] } :=
  ⟨rfl, rfl⟩

/-- Claim C5 as amended: fetchJobs fails with a configuration error exactly
when the trimmed location is empty, the instance code is empty, the
location differs from the instance code, or the base URL is empty; an
empty API key does not fail (the request is simply sent without the
X-API-KEY header).  Under these error conditions no jobs are returned. -/
theorem C5_config_errors (cfg : ClientConfig) (fetch : Option MType → List Monitoring)
    (location : String) (types : List MType) :
    (∃ e, GetMonitorings cfg fetch location types = Except.error e)
      ↔ (goTrimSpace location = "" ∨ cfg.instanceCode = ""
          ∨ goTrimSpace location ≠ cfg.instanceCode ∨ cfg.baseURL = "") := by
  constructor
  · intro hE
    by_contra hC
    push_neg at hC
    obtain ⟨h1, h2, h3, h4⟩ := hC
    obtain ⟨log, hok⟩ := GetMonitorings_ok cfg fetch location types h1 h3 h4
    obtain ⟨e, he⟩ := hE
    rw [hok] at he
    cases he
  · intro hC
    cases hR : GetMonitorings cfg fetch location types with
    | error e => exact ⟨e, rfl⟩
    | ok log =>
      obtain ⟨n1, n2, n3, n4⟩ := GetMonitorings_ok_implies cfg fetch location types log hR
      rcases hC with h | h | h | h
      · exact absurd h n1
      · exact absurd h n2
      · exact absurd n3 h
      · exact absurd h n4

/- ------------------------------------------------------------------
Claim C1 — the job id on the wire.
------------------------------------------------------------------ -/

/-- Claim C1, code behaviour at the failing inputs: the decoder feeds the
raw id through parseInt64Flexible, so the JSON string "42" becomes the
int64 42 and is posted back as the JSON number 42 — not the string the
claim (and the tests of the repository itself, which expect the decoded id to be
the string "42" and feed ids like "shared" through the client) requires;
the non-numeric id "shared" is rejected as a decode error outright, while
the spec-modelled string normalization accepts both. -/
theorem C1_id_not_string :
    decodeMonitoringID (JsonValue.num 42) = Except.ok 42
    ∧ decodeMonitoringID (JsonValue.str ("42")) = Except.ok 42
    ∧ (decodeMonitoringID (JsonValue.str ("42"))).map postedMonitoringID
        = Except.ok (JsonValue.num 42)
    ∧ decodeMonitoringID (JsonValue.str ("shared")) = Except.error ("invalid id")
    ∧ JsonValue.num 42 ≠ JsonValue.str ("42")
    ∧ normalizeIDSpec (JsonValue.num 42) = Except.ok ("42")
    ∧ normalizeIDSpec (JsonValue.str ("shared")) = Except.ok ("shared") :=
  ⟨rfl, rfl, rfl, rfl, fun h => JsonValue.noConfusion h, rfl, rfl⟩

/- ------------------------------------------------------------------
Claim C2 — the HTTP retry policy.
------------------------------------------------------------------ -/

/-- An http-type job with a non-empty target, used by the HTTP probe
claims. -/
def mHTTPJob : Monitoring :=
  mkJob ("1") ("http")

/-- The attempt sequence of the claimed scenario: the first request is
answered with HTTP 500, the second with HTTP 200. -/
def outcomes500then200 : Nat → AttemptOutcome :=
  fun i => if i = 0 then .response 500 ("") 1 else .response 200 ("") 1

/-- Claim C2, counterexample: against a target answering 500 then 200 the
HTTP probe does NOT succeed — the 500 response ends the request loop at
once (one request, no retry, no delay) and the probe reports down, because
only transport-level failures are retried. -/
theorem C2_counterexample :
    handleHTTPMonitoring outcomes500then200 mHTTPJob = (Status.down, none)
    ∧ (performHTTPRequest outcomes500then200 mHTTPJob).requestsIssued = 1
    ∧ (performHTTPRequest outcomes500then200 mHTTPJob).sleptMs = 0 :=
  ⟨rfl, rfl, rfl⟩

/-- Claim C2 as amended: an HTTP probe whose target fails at the transport
level on the first request and returns 200 on the second succeeds after
the single retry, with the fixed 250ms delay slept (so at least 250ms
elapsed); an HTTP response — whatever its status code — is never retried
(one request, no delay); a second transport failure is terminal, with
exactly one 250ms delay. -/
theorem C2_retry_policy :
    (∀ durA durB body,
      ∃ t, handleHTTPMonitoring
            (fun i => if i = 0 then AttemptOutcome.transportError durA
              else AttemptOutcome.response 200 body durB) mHTTPJob
          = (Status.up, some t)
        ∧ fixedHTTPRetryDelayMs ≤ t
        ∧ (performHTTPRequest
            (fun i => if i = 0 then AttemptOutcome.transportError durA
              else AttemptOutcome.response 200 body durB) mHTTPJob).requestsIssued = 2
        ∧ (performHTTPRequest
            (fun i => if i = 0 then AttemptOutcome.transportError durA
              else AttemptOutcome.response 200 body durB) mHTTPJob).sleptMs
            = fixedHTTPRetryDelayMs)
    ∧ (∀ out : Nat → AttemptOutcome, ∀ code body dur,
        out 0 = AttemptOutcome.response code body dur →
        (performHTTPRequest out mHTTPJob).requestsIssued = 1
        ∧ (performHTTPRequest out mHTTPJob).sleptMs = 0
        ∧ (performHTTPRequest out mHTTPJob).result = Except.ok (code, body))
    ∧ (∀ durA durB,
        (performHTTPRequest
          (fun i => if i = 0 then AttemptOutcome.transportError durA
            else AttemptOutcome.transportError durB) mHTTPJob).result = Except.error ()
        ∧ (performHTTPRequest
            (fun i => if i = 0 then AttemptOutcome.transportError durA
              else AttemptOutcome.transportError durB) mHTTPJob).sleptMs
            = fixedHTTPRetryDelayMs) := by
  refine ⟨?_, ?_, ?_⟩
  · intro durA durB body
    refine ⟨0 + durA + fixedHTTPRetryDelayMs + durB, rfl, by omega, rfl, rfl⟩
  · intro out code body dur h0
    have hstep : performHTTPRequest out mHTTPJob = performHTTPLoop out 2 0 0 0 0 := rfl
    rw [hstep, performHTTPLoop, h0]
    exact ⟨rfl, rfl, rfl⟩
  · intro durA durB
    exact ⟨rfl, rfl⟩

/-- Witness for C2 as amended: a lone 503 response is returned after one
request with no retry delay. -/
theorem C2_retry_policy_witness :
    (performHTTPRequest (fun _ => AttemptOutcome.response 503 ("oops") 3) mHTTPJob).requestsIssued = 1
    ∧ (performHTTPRequest (fun _ => AttemptOutcome.response 503 ("oops") 3) mHTTPJob).sleptMs = 0
    ∧ (performHTTPRequest (fun _ => AttemptOutcome.response 503 ("oops") 3) mHTTPJob).result
        = Except.ok (503, "oops") :=
  C2_retry_policy.2.1 (fun _ => AttemptOutcome.response 503 ("oops") 3) 503 ("oops") 3 rfl

/- ------------------------------------------------------------------
Claim C9 — the orchestrator never fails hard.
------------------------------------------------------------------ -/

/-- Claim C9: RunMonitoring completes and reports success for every
combination of phase outcomes; in particular, with both fetches failing it
still returns ok, merely recording that the phases failed. -/
theorem C9_no_hard_failure :
    (∀ (fetchResp fetchSSL : Except String (List Monitoring))
        (crawl : Monitoring → Status × Option Nat)
        (crawlSSL : Monitoring → SSLResultPayload),
      (RunMonitoring fetchResp fetchSSL crawl crawlSSL).isOk = true)
    ∧ (∀ (e1 e2 : String) (crawl : Monitoring → Status × Option Nat)
        (crawlSSL : Monitoring → SSLResultPayload),
      RunMonitoring (Except.error e1) (Except.error e2) crawl crawlSSL
        = Except.ok { responseFailed := true, sslFailed := true }) :=
  ⟨fun _ _ _ _ => rfl, fun _ _ _ _ => rfl⟩

/- ------------------------------------------------------------------
Claim C10 — the keyword probe with an empty keyword.
------------------------------------------------------------------ -/

/-- The empty pattern is a substring of every string, as with the Go
strings.Contains function. -/
theorem listContainsSub_nil (cs : List Char) : listContainsSub [] cs = true := by
  cases cs with
  | nil => rfl
  | cons c rest => rfl

/-- Claim C10: for a keyword job whose keyword is empty, any HTTP exchange
that completes without a transport error is reported up with a response
time, whatever the status code and body — the strategy never looks at the
code and the empty substring matches every body. -/
theorem C10_empty_keyword (out : Nat → AttemptOutcome) (m : Monitoring)
    (code : Nat) (body : String) (dur : Nat)
    (hk : m.keyword = "")
    (ht : (trimChars m.target.data).isEmpty = false)
    (h0 : out 0 = AttemptOutcome.response code body dur) :
    (handleKeywordMonitoring out m).1 = Status.up
    ∧ ((handleKeywordMonitoring out m).2).isSome = true := by
  have hreq : performHTTPRequest out m = performHTTPLoop out 2 0 0 0 0 := by
    rw [performHTTPRequest, ht]
    rfl
  have hcontains : goStringContains body m.keyword = true := by
    rw [hk]
    exact listContainsSub_nil body.data
  rw [handleKeywordMonitoring, hreq, performHTTPLoop, h0]
  simp only [hcontains]
  exact ⟨rfl, rfl⟩

/-- Witness for C10: a 503 answer with a non-matching-looking body is still
up with a response time when the keyword is empty. -/
theorem C10_empty_keyword_witness :
    (handleKeywordMonitoring (fun _ => AttemptOutcome.response 503 ("service down") 12) mHTTPJob).1
      = Status.up
    ∧ ((handleKeywordMonitoring
        (fun _ => AttemptOutcome.response 503 ("service down") 12) mHTTPJob).2).isSome = true :=
  C10_empty_keyword (fun _ => AttemptOutcome.response 503 ("service down") 12) mHTTPJob
    503 ("service down") 12 rfl rfl rfl

/- ------------------------------------------------------------------
Claim C4 — maintenance jobs.
------------------------------------------------------------------ -/

/-- Every maintenance-flagged job in the batch gets the fixed
unknown/no-time response posted for it. -/
theorem runResponsePhase_maintenance_mem (crawl : Monitoring → Status × Option Nat)
    (jobs : List Monitoring) (m : Monitoring) (hm : m ∈ jobs)
    (hMaint : m.maintenanceActive = true) :
    ({ monitoringId := m.id, status := Status.unknown, responseTime := none }
        : MonitoringResponsePayload) ∈ (runResponsePhase crawl jobs).posts := by
  induction jobs with
  | nil => cases hm
  | cons x rest ih =>
    rw [runResponsePhase]
    rcases List.mem_cons.mp hm with hx | hx
    · rw [← hx, hMaint]
      simp only [if_true]
      exact List.mem_cons_self _ _
    · by_cases hxm : x.maintenanceActive
      · simp only [if_pos hxm]
        exact List.mem_cons_of_mem _ (ih hx)
      · simp only [if_neg hxm]
        exact List.mem_cons_of_mem _ (ih hx)

/-- Every posted SSL result comes from a non-maintenance job of the batch:
maintenance jobs are skipped with nothing posted and no strategy run. -/
theorem runSSLPhase_posts_from (crawlSSL : Monitoring → SSLResultPayload)
    (jobs : List Monitoring) :
    ∀ p ∈ (runSSLPhase crawlSSL jobs).posts,
      ∃ m2, m2 ∈ jobs ∧ m2.maintenanceActive = false ∧ p = crawlSSL m2 := by
  induction jobs with
  | nil => intro p hp; cases hp
  | cons x rest ih =>
    intro p hp
    rw [runSSLPhase] at hp
    by_cases hxm : x.maintenanceActive
    · rw [if_pos hxm] at hp
      obtain ⟨m2, h1, h2, h3⟩ := ih p hp
      exact ⟨m2, List.mem_cons_of_mem _ h1, h2, h3⟩
    · rw [if_neg hxm] at hp
      rcases List.mem_cons.mp hp with hx | hx
      · exact ⟨x, List.mem_cons_self _ _, Bool.not_eq_true _ ▸ eq_false_of_ne_true hxm, hx⟩
      · obtain ⟨m2, h1, h2, h3⟩ := ih p hx
        exact ⟨m2, List.mem_cons_of_mem _ h1, h2, h3⟩

/-- The SSL phase posts exactly one result per non-maintenance job. -/
theorem runSSLPhase_posts_length (crawlSSL : Monitoring → SSLResultPayload)
    (jobs : List Monitoring) :
    (runSSLPhase crawlSSL jobs).posts.length
      = (jobs.filter (fun j => !j.maintenanceActive)).length := by
  induction jobs with
  | nil => rfl
  | cons x rest ih =>
    rw [runSSLPhase]
    by_cases hxm : x.maintenanceActive
    · simp [hxm, ih]
    · simp [hxm, ih]

/-- Claim C4: a maintenance-flagged job is never run by a probe strategy:
the response phase posts unknown with no response time for it, and the SSL
phase posts nothing for it — every SSL post comes from a non-maintenance
job, and the number of SSL posts equals the number of non-maintenance
jobs. -/
theorem C4_maintenance (crawl : Monitoring → Status × Option Nat)
    (crawlSSL : Monitoring → SSLResultPayload) (jobs : List Monitoring)
    (m : Monitoring) (hm : m ∈ jobs) (hMaint : m.maintenanceActive = true) :
    ({ monitoringId := m.id, status := Status.unknown, responseTime := none }
        : MonitoringResponsePayload) ∈ (runResponsePhase crawl jobs).posts
    ∧ (∀ p ∈ (runSSLPhase crawlSSL jobs).posts,
        ∃ m2, m2 ∈ jobs ∧ m2.maintenanceActive = false ∧ p = crawlSSL m2)
    ∧ (runSSLPhase crawlSSL jobs).posts.length
        = (jobs.filter (fun j => !j.maintenanceActive)).length :=
  ⟨runResponsePhase_maintenance_mem crawl jobs m hm hMaint,
    runSSLPhase_posts_from crawlSSL jobs,
    runSSLPhase_posts_length crawlSSL jobs⟩

/-- A maintenance-flagged job fixture. -/
def jobMaint : Monitoring :=
  { mkJob ("7") ("http") with maintenanceActive := true }

/-- A trivial SSL crawler for the witnesses: the all-invalid payload. -/
def crawlSSLFixture (m : Monitoring) : SSLResultPayload :=
  { monitoringId := m.id, isValid := false, expiresAt := none, issuer := none, issuedAt := none }

/-- Witness for C4 on a two-job batch containing one maintenance job. -/
theorem C4_maintenance_witness :
    ({ monitoringId := jobMaint.id, status := Status.unknown, responseTime := none }
        : MonitoringResponsePayload)
      ∈ (runResponsePhase (fun _ => (Status.up, some 5)) [jobMaint, mkJob ("8") ("http")]).posts
    ∧ (∀ p ∈ (runSSLPhase crawlSSLFixture [jobMaint, mkJob ("8") ("http")]).posts,
        ∃ m2, m2 ∈ [jobMaint, mkJob ("8") ("http")] ∧ m2.maintenanceActive = false
          ∧ p = crawlSSLFixture m2)
    ∧ (runSSLPhase crawlSSLFixture [jobMaint, mkJob ("8") ("http")]).posts.length
        = ([jobMaint, mkJob ("8") ("http")].filter (fun j => !j.maintenanceActive)).length :=
  C4_maintenance (fun _ => (Status.up, some 5)) crawlSSLFixture
    [jobMaint, mkJob ("8") ("http")] jobMaint (List.mem_cons_self _ _) rfl

/- ------------------------------------------------------------------
Claim C6 — the TLS certificate validator.
------------------------------------------------------------------ -/

/-- Claim C6: the SSL result is invalid whenever address resolution fails,
the dial fails, no peer certificate is present, the current time lies
outside the validity window of the certificate, or hostname verification fails;
and every invalid result carries no expiry, no issuer and no issued-at. -/
theorem C6_ssl_invalid (env : SSLEnv) (m : Monitoring) :
    ((∀ e, SSLAddressAndServerName m.target = Except.error e →
        (crawlMonitoringSSL env m).isValid = false)
    ∧ (∀ a sn, SSLAddressAndServerName m.target = Except.ok (a, sn) →
        env.dial a sn = none → (crawlMonitoringSSL env m).isValid = false)
    ∧ (∀ a sn conn, SSLAddressAndServerName m.target = Except.ok (a, sn) →
        env.dial a sn = some conn → conn.peerCertificates = [] →
        (crawlMonitoringSSL env m).isValid = false)
    ∧ (∀ a sn conn cert rest, SSLAddressAndServerName m.target = Except.ok (a, sn) →
        env.dial a sn = some conn → conn.peerCertificates = cert :: rest →
        (env.now < cert.notBefore ∨ cert.notAfter < env.now) →
        (crawlMonitoringSSL env m).isValid = false)
    ∧ (∀ a sn conn cert rest, SSLAddressAndServerName m.target = Except.ok (a, sn) →
        env.dial a sn = some conn → conn.peerCertificates = cert :: rest →
        env.verifyHostname cert sn = false →
        (crawlMonitoringSSL env m).isValid = false))
    ∧ ((crawlMonitoringSSL env m).isValid = false →
        (crawlMonitoringSSL env m).expiresAt = none
        ∧ (crawlMonitoringSSL env m).issuer = none
        ∧ (crawlMonitoringSSL env m).issuedAt = none) := by
  constructor
  · refine ⟨?_, ?_, ?_, ?_, ?_⟩
    · intro e he
      simp [crawlMonitoringSSL, he]
    · intro a sn he hdial
      simp [crawlMonitoringSSL, he, hdial]
    · intro a sn conn he hdial hpeers
      simp [crawlMonitoringSSL, he, hdial, hpeers]
    · intro a sn conn cert rest he hdial hpeers hwin
      simp [crawlMonitoringSSL, he, hdial, hpeers, hwin]
    · intro a sn conn cert rest he hdial hpeers hv
      by_cases hwin : env.now < cert.notBefore ∨ cert.notAfter < env.now
      · simp [crawlMonitoringSSL, he, hdial, hpeers, hwin]
      · simp [crawlMonitoringSSL, he, hdial, hpeers, hwin, hv]
  · intro hinv
    cases he : SSLAddressAndServerName m.target with
    | error e => simp [crawlMonitoringSSL, he]
    | ok pair =>
      obtain ⟨a, sn⟩ := pair
      cases hdial : env.dial a sn with
      | none => simp [crawlMonitoringSSL, he, hdial]
      | some conn =>
        cases hpeers : conn.peerCertificates with
        | nil => simp [crawlMonitoringSSL, he, hdial, hpeers]
        | cons cert rest =>
          by_cases hwin : env.now < cert.notBefore ∨ cert.notAfter < env.now
          · simp [crawlMonitoringSSL, he, hdial, hpeers, hwin]
          · by_cases hv : env.verifyHostname cert sn = false
            · simp [crawlMonitoringSSL, he, hdial, hpeers, hwin, hv]
            · exfalso
              simp [crawlMonitoringSSL, he, hdial, hpeers, hwin, hv] at hinv

/-- An SSL environment whose dial always fails. -/
def envDialFails : SSLEnv :=
  { dial := fun _ _ => none, now := 0, verifyHostname := fun _ _ => true }

/-- Witness for C6: a dial failure leaves the result invalid. -/
theorem C6_ssl_invalid_witness :
    (crawlMonitoringSSL envDialFails (mkJob ("12") ("http"))).isValid = false :=
  (C6_ssl_invalid envDialFails (mkJob ("12") ("http"))).1.2.1
    ("example.com:443") ("example.com") rfl rfl

/- ------------------------------------------------------------------
Claim C7 — ping vs port on connection failure.
------------------------------------------------------------------ -/

/-- Claim C7: a port job with a non-positive port is down with no response
time and no connection attempt; the ping port defaults to 80; on a failed
connect the ping strategy still records a response time while the port
strategy records none. -/
theorem C7_ping_vs_port (env : DialEnv) (m : Monitoring) :
    (m.port ≤ 0 → handlePortMonitoring env m
        = { status := Status.down, responseTime := none, dialed := [] })
    ∧ (m.port ≤ 0 →
        handlePingMonitoring env m = handlePingMonitoring env { m with port := 80 })
    ∧ (∀ address, TCPAddress m.target (if m.port ≤ 0 then 80 else m.port) = Except.ok address →
        (env.dial address).1 = false →
        handlePingMonitoring env m
          = { status := Status.down, responseTime := some (env.dial address).2,
              dialed := [address] })
    ∧ (0 < m.port → ∀ address, TCPAddress m.target m.port = Except.ok address →
        (env.dial address).1 = false →
        handlePortMonitoring env m
          = { status := Status.down, responseTime := none, dialed := [address] }) := by
  refine ⟨?_, ?_, ?_, ?_⟩
  · intro h
    rw [handlePortMonitoring, if_pos h]
  · intro h
    simp only [handlePingMonitoring, if_pos h]
    norm_num
  · intro address haddr hfail
    simp only [handlePingMonitoring, haddr, hfail]
    simp
  · intro hpos address haddr hfail
    rw [handlePortMonitoring, if_neg (not_le.mpr hpos)]
    simp only [haddr, hfail]
    simp

/-- A dial oracle that always fails after 12 milliseconds. -/
def envAlwaysRefused : DialEnv :=
  { dial := fun _ => (false, 12) }

/-- Witness for C7: ping against a refused connection keeps the measured
time, port does not. -/
theorem C7_ping_vs_port_witness :
    handlePingMonitoring envAlwaysRefused (mkJob ("9") ("ping"))
      = { status := Status.down, responseTime := some 12, dialed := ["example.com:80"] }
    ∧ handlePortMonitoring envAlwaysRefused { mkJob ("9") ("port") with port := 8443 }
      = { status := Status.down, responseTime := none, dialed := ["example.com:8443"] } :=
  ⟨(C7_ping_vs_port envAlwaysRefused (mkJob ("9") ("ping"))).2.2.1
      ("example.com:80") rfl rfl,
    (C7_ping_vs_port envAlwaysRefused { mkJob ("9") ("port") with port := 8443 }).2.2.2
      (by norm_num) ("example.com:8443") rfl rfl⟩

/- ------------------------------------------------------------------
Claim C8 — addressForPort (target.TCPAddress).
------------------------------------------------------------------ -/

/-- Claim C8: TCPAddress strips the scheme, extracts the host, fails on an
empty target or a non-positive port, and always joins the host with the
explicitly supplied port — the port argument wins over any port embedded
in the URL, as on the concrete example. -/
theorem C8_address_for_port :
    TCPAddress ("https://example.com:8443/path") 443 = Except.ok ("example.com:443")
    ∧ (∀ p : Int, TCPAddress ("") p = Except.error ("target is empty"))
    ∧ (∀ t (p : Int), p ≤ 0 → ∃ e, TCPAddress t p = Except.error e)
    ∧ (∀ t (p : Int) host prt, 0 < p → extractHostPort t = Except.ok (host, prt) →
        TCPAddress t p = Except.ok (joinHostPort host (toString p))) := by
  refine ⟨rfl, fun _ => rfl, ?_, ?_⟩
  · intro t p hp
    cases hex : extractHostPort t with
    | error e =>
      refine ⟨e, ?_⟩
      simp [TCPAddress, hex]
    | ok pair =>
      obtain ⟨host, prt⟩ := pair
      refine ⟨"invalid port", ?_⟩
      simp [TCPAddress, hex, if_pos hp]
  · intro t p host prt hp hex
    simp [TCPAddress, hex, not_le.mpr hp]

/-- Witness for C8: a bare host joined with an explicit positive port. -/
theorem C8_address_for_port_witness :
    TCPAddress ("example.com") 80
      = Except.ok (joinHostPort ("example.com") (toString (80 : Int))) :=
  C8_address_for_port.2.2.2 ("example.com") 80 ("example.com") ("") (by norm_num) rfl

end WebGuard
